import Mathlib

/-!
# Verification of `svg-wheel-generator` (`src/src/index.js`)

Shallow embedding of the path-building library.  Numbers are modelled as
exact rationals (`ℚ`); IEEE-754 rounding is outside the scope of the claims
settled here, except for the dedicated non-finiteness model in the
`JsFloat` namespace.

The source delegates four things to code outside this repository:
`Math.cos` / `Math.sin` / `Math.PI` / `Math.sqrt`, the first-intersection
lookups of the npm package `kld-intersections`
(`Intersection.intersect(a, b).points[0]`), and the ECMAScript
number-to-string conversion used by template-literal interpolation
(`${x}`).  The embedding is parameterized over an oracle (`Geom`)
providing those primitives, so every theorem holds for each instantiation
of the external libraries.

The JS template literals are represented by their line / fragment
structure (`renderTemplate` reproduces the literal's text, newlines and
indentation included), and `stripWhitespace` collapses whitespace exactly
as `path.replace(/\s+/g, ' ').trim()` does: every maximal whitespace run
becomes a single space and outer whitespace disappears, which is the same
as joining the whitespace-separated fragments with single spaces.
-/

namespace SvgWheel

/-- A point of the SVG plane (source `Point` typedef). -/
structure Point where
  x : ℚ
  y : ℚ
deriving DecidableEq, Repr

/-- A directed line segment (source `Line` typedef).  The source field
`end` is a Lean keyword, hence `end_`. -/
structure Line where
  start : Point
  end_ : Point
deriving DecidableEq, Repr

/-- Oracle bundling the primitives the source imports from outside this
repository: JS `Math.cos`, `Math.sin`, `Math.PI`, `Math.sqrt`; the
kld-intersections lookups `Intersection.intersect(ShapeInfo.line l,
ShapeInfo.circle c r).points[0]` (field `lineCircle`) and
`Intersection.intersect(ShapeInfo.line a, ShapeInfo.line b).points[0]`
(field `lineLine`); and the ECMAScript number→string conversion used by
`${...}` interpolation (field `num`). -/
structure Geom where
  cos : ℚ → ℚ
  sin : ℚ → ℚ
  pi : ℚ
  sqrt : ℚ → ℚ
  lineCircle : Line → Point → ℚ → Point
  lineLine : Line → Line → Point
  num : ℚ → String

/-- Splits a character list at whitespace runs; `acc` is the reversed
current fragment.  Helper for `wsTokens`. -/
def splitWsAux : List Char → List Char → List String
  | [], acc => if acc.isEmpty then [] else [String.mk acc.reverse]
  | c :: cs, acc =>
    if c.isWhitespace then
      if acc.isEmpty then splitWsAux cs [] else String.mk acc.reverse :: splitWsAux cs []
    else
      splitWsAux cs (c :: acc)

/-- The maximal whitespace-free fragments of a string, in order. -/
def wsTokens (s : String) : List String := splitWsAux s.data []

/-- Joins fragments with single spaces (`String.intercalate " "`,
spelled out recursively for easier induction). -/
def joinTokens : List String → String
  | [] => ""
  | [t] => t
  | t :: rest => t ++ " " ++ joinTokens rest

/-- Source `stripWhitespace`: `path.replace(/\s+/g, ' ').trim()`.
Collapsing every whitespace run to one space and trimming is the same as
joining the whitespace-separated fragments with single spaces. -/
def stripWhitespace (path : String) : String := joinTokens (wsTokens path)

/-- Reproduces the text of the source template literals: every line is
written on its own line indented by twelve spaces, the fragments of a
line separated by single spaces, and the literal ends with a newline and
the closing indentation. -/
def renderTemplate : List (List String) → String
  | [] => "\n        "
  | line :: rest => "\n            " ++ joinTokens line ++ renderTemplate rest

/-- A well-formed path fragment: nonempty and free of whitespace. -/
def Tok (t : String) : Prop := t.data ≠ [] ∧ ∀ c ∈ t.data, c.isWhitespace = false

/-- What ECMAScript number→string conversion guarantees of its output:
a nonempty, whitespace-free string (`Tok`) that moreover contains none of
the path-command letters `M`, `A`, `L`, `Z` (number strings consist of
digits, `-`, `+`, `.`, `e` and the words `Infinity` / `NaN`). -/
def GoodNum (t : String) : Prop :=
  Tok t ∧ ∀ c ∈ t.data, c ≠ 'M' ∧ c ≠ 'A' ∧ c ≠ 'L' ∧ c ≠ 'Z'

instance (t : String) : Decidable (Tok t) := by unfold Tok; infer_instance

instance (t : String) : Decidable (GoodNum t) := by unfold GoodNum; infer_instance

/-- Source `getPerpendicularOffset(start, end, offset)`:
the `(offsetX, offsetY)` displacement perpendicular to the directed line,
scaled by `offset / distance`.  (`Math.pow(d, 2)` is `d ^ 2`.) -/
def getPerpendicularOffset (g : Geom) (start end_ : Point) (offset : ℚ) : ℚ × ℚ :=
  let differenceX := start.x - end_.x
  let differenceY := start.y - end_.y
  let distance := g.sqrt (differenceX ^ 2 + differenceY ^ 2)
  (differenceX * offset / distance, differenceY * offset / distance)

/-- Source `getLeftParallelLine(start, end, offset)`. -/
def getLeftParallelLine (g : Geom) (start end_ : Point) (offset : ℚ) : Line :=
  let o := getPerpendicularOffset g start end_ offset
  { start := { x := start.x - o.2, y := start.y + o.1 }
    end_ := { x := end_.x - o.2, y := end_.y + o.1 } }

/-- Source `getRightParallelLine(start, end, offset)`. -/
def getRightParallelLine (g : Geom) (start end_ : Point) (offset : ℚ) : Line :=
  let o := getPerpendicularOffset g start end_ offset
  { start := { x := start.x + o.2, y := start.y - o.1 }
    end_ := { x := end_.x + o.2, y := end_.y - o.1 } }

/-- Source `getPointOnCircle(angle, radius, center)`. -/
def getPointOnCircle (g : Geom) (angle radius : ℚ) (center : Point) : Point :=
  { x := center.x + radius * g.cos angle
    y := center.y + radius * g.sin angle }

/-- Source `getAnnulusSectorPath(startAngle, endAngle, outerRadius,
innerRadius, spokeWidth, center)`.  (The source's default arguments
`innerRadius = 0`, `spokeWidth = 0`, `center = {x:0,y:0}` are passed
explicitly here.) -/
def getAnnulusSectorPath (g : Geom) (startAngle endAngle outerRadius innerRadius spokeWidth : ℚ)
    (center : Point) : String :=
  let leftLine := getRightParallelLine g center
    (getPointOnCircle g startAngle (outerRadius + 1) center) (spokeWidth / 2)
  let rightLine := getLeftParallelLine g center
    (getPointOnCircle g endAngle (outerRadius + 1) center) (spokeWidth / 2)
  let outerArcStart := g.lineCircle leftLine center outerRadius
  let outerArcEnd := g.lineCircle rightLine center outerRadius
  if innerRadius ≤ spokeWidth then
    let lineIntersection := g.lineLine leftLine rightLine
    stripWhitespace (renderTemplate [
      ["M", g.num outerArcStart.x, g.num outerArcStart.y],
      ["A", g.num outerRadius, g.num outerRadius, "0", "0", "1",
        g.num outerArcEnd.x, g.num outerArcEnd.y],
      ["L", g.num lineIntersection.x, g.num lineIntersection.y],
      ["Z"]])
  else
    let innerArcStart := g.lineCircle rightLine center innerRadius
    let innerArcEnd := g.lineCircle leftLine center innerRadius
    stripWhitespace (renderTemplate [
      ["M", g.num outerArcStart.x, g.num outerArcStart.y],
      ["A", g.num outerRadius, g.num outerRadius, "0", "0", "1",
        g.num outerArcEnd.x, g.num outerArcEnd.y],
      ["L", g.num innerArcStart.x, g.num innerArcStart.y],
      ["A", g.num innerRadius, g.num innerRadius, "0", "0", "0",
        g.num innerArcEnd.x, g.num innerArcEnd.y],
      ["Z"]])

/-- Source `getAnnulusSectorPaths(sectorCount, outerRadius, innerRadius,
spokeWidth, angleOffset, center)`: `Array.from({length: sectorCount},
(v, index) => ...)` is `(List.range sectorCount).map`. -/
def getAnnulusSectorPaths (g : Geom) (sectorCount : ℕ)
    (outerRadius innerRadius spokeWidth angleOffset : ℚ) (center : Point) : List String :=
  let outerArcLength := 2 * g.pi / sectorCount
  (List.range sectorCount).map fun index : ℕ =>
    let startAngle := angleOffset + ((index : ℚ) * outerArcLength)
    let endAngle := startAngle + outerArcLength
    getAnnulusSectorPath g startAngle endAngle outerRadius innerRadius spokeWidth center

/-- Source `getAnnulusSectorArcTextPath(...)`: boundary lines built on the
exact `outerRadius` (no `+ 1` overshoot), intersected with the mid-radius
circle; start / end swapped (and sweep `1` becomes `0`) when the start's
x-coordinate exceeds the end's. -/
def getAnnulusSectorArcTextPath (g : Geom)
    (startAngle endAngle outerRadius innerRadius spokeWidth : ℚ) (center : Point) : String :=
  let leftLine := getRightParallelLine g center
    (getPointOnCircle g startAngle outerRadius center) (spokeWidth / 2)
  let rightLine := getLeftParallelLine g center
    (getPointOnCircle g endAngle outerRadius center) (spokeWidth / 2)
  let middleRadius := (innerRadius + outerRadius) / 2
  let textPathStart := g.lineCircle leftLine center middleRadius
  let textPathEnd := g.lineCircle rightLine center middleRadius
  if textPathStart.x > textPathEnd.x then
    stripWhitespace (renderTemplate [
      ["M", g.num textPathEnd.x, g.num textPathEnd.y],
      ["A", g.num middleRadius, g.num middleRadius, "0", "0", "0",
        g.num textPathStart.x, g.num textPathStart.y]])
  else
    stripWhitespace (renderTemplate [
      ["M", g.num textPathStart.x, g.num textPathStart.y],
      ["A", g.num middleRadius, g.num middleRadius, "0", "0", "1",
        g.num textPathEnd.x, g.num textPathEnd.y]])

/-- Source `getAnnulusSectorArcTextPaths(...)`. -/
def getAnnulusSectorArcTextPaths (g : Geom) (sectorCount : ℕ)
    (outerRadius innerRadius spokeWidth angleOffset : ℚ) (center : Point) : List String :=
  let outerArcLength := 2 * g.pi / sectorCount
  (List.range sectorCount).map fun index : ℕ =>
    let startAngle := angleOffset + ((index : ℚ) * outerArcLength)
    let endAngle := startAngle + outerArcLength
    getAnnulusSectorArcTextPath g startAngle endAngle outerRadius innerRadius spokeWidth center

/-- Source `getAnnulusSectorLineTextPath(...)`: a radial line through the
sector's middle angle, intersected with the inner and outer circles;
start / end swapped when the start's x-coordinate exceeds the end's.
The `spokeWidth` parameter is accepted but never used, as in the source. -/
def getAnnulusSectorLineTextPath (g : Geom)
    (startAngle endAngle outerRadius innerRadius spokeWidth : ℚ) (center : Point) : String :=
  let middleAngle := (startAngle + endAngle) / 2
  let lineEnd := getPointOnCircle g middleAngle (outerRadius + 1) center
  let line : Line := { start := center, end_ := lineEnd }
  let textPathStart := g.lineCircle line center innerRadius
  let textPathEnd := g.lineCircle line center outerRadius
  if textPathStart.x > textPathEnd.x then
    stripWhitespace (renderTemplate [
      ["M", g.num textPathEnd.x, g.num textPathEnd.y],
      ["L", g.num textPathStart.x, g.num textPathStart.y]])
  else
    stripWhitespace (renderTemplate [
      ["M", g.num textPathStart.x, g.num textPathStart.y],
      ["L", g.num textPathEnd.x, g.num textPathEnd.y]])

/-- Source `getAnnulusSectorLineTextPaths(...)`. -/
def getAnnulusSectorLineTextPaths (g : Geom) (sectorCount : ℕ)
    (outerRadius innerRadius spokeWidth angleOffset : ℚ) (center : Point) : List String :=
  let outerArcLength := 2 * g.pi / sectorCount
  (List.range sectorCount).map fun index : ℕ =>
    let startAngle := angleOffset + ((index : ℚ) * outerArcLength)
    let endAngle := startAngle + outerArcLength
    getAnnulusSectorLineTextPath g startAngle endAngle outerRadius innerRadius spokeWidth center

/-- Truncation toward zero, as ECMAScript's `%` uses for its implied
quotient. -/
def jsTrunc (q : ℚ) : ℤ := if 0 ≤ q then ⌊q⌋ else ⌈q⌉

/-- ECMAScript remainder `a % b` (sign of the dividend):
`a - b * trunc(a / b)`. -/
def jsMod (a b : ℚ) : ℚ := a - b * (jsTrunc (a / b) : ℚ)

/-- Source `degToRad(deg)`: `((deg % 360) - 90) / 180 * Math.PI`. -/
def degToRad (g : Geom) (deg : ℚ) : ℚ := (jsMod deg 360 - 90) / 180 * g.pi

/-- Source deprecated `getWheelSegmentPath(...)`. -/
def getWheelSegmentPath (g : Geom)
    (startAngle endAngle outerRadius innerRadius spokeWidth : ℚ) (center : Point) : String :=
  getAnnulusSectorPath g (degToRad g startAngle) (degToRad g endAngle)
    outerRadius innerRadius spokeWidth center

/-- Source deprecated `getWheelSegmentPaths(...)`. -/
def getWheelSegmentPaths (g : Geom) (segmentCount : ℕ)
    (outerRadius innerRadius spokeWidth angleOffset : ℚ) (center : Point) : List String :=
  getAnnulusSectorPaths g segmentCount outerRadius innerRadius spokeWidth
    (degToRad g angleOffset) center

/-- Source deprecated `getWheelSegmentArcTextPath(...)`. -/
def getWheelSegmentArcTextPath (g : Geom)
    (startAngle endAngle outerRadius innerRadius spokeWidth : ℚ) (center : Point) : String :=
  getAnnulusSectorArcTextPath g (degToRad g startAngle) (degToRad g endAngle)
    outerRadius innerRadius spokeWidth center

/-- Source deprecated `getWheelSegmentLineTextPath(...)`. -/
def getWheelSegmentLineTextPath (g : Geom)
    (startAngle endAngle outerRadius innerRadius spokeWidth : ℚ) (center : Point) : String :=
  getAnnulusSectorLineTextPath g (degToRad g startAngle) (degToRad g endAngle)
    outerRadius innerRadius spokeWidth center

/-- Rounding to two decimal places. -/
def roundTo2 (q : ℚ) : ℚ := (⌊q * 100 + 1 / 2⌋ : ℤ) / 100

/-- Modelled from the spec: "Coordinates returned by intersection lookups
are rounded to 2 decimal places before use".  No such step exists in
`src/src/index.js`; this variant of `getAnnulusSectorPath` inserts the
rounding the spec describes, for comparison with the source function. -/
def getAnnulusSectorPathRounded (g : Geom)
    (startAngle endAngle outerRadius innerRadius spokeWidth : ℚ) (center : Point) : String :=
  let leftLine := getRightParallelLine g center
    (getPointOnCircle g startAngle (outerRadius + 1) center) (spokeWidth / 2)
  let rightLine := getLeftParallelLine g center
    (getPointOnCircle g endAngle (outerRadius + 1) center) (spokeWidth / 2)
  let outerArcStart := g.lineCircle leftLine center outerRadius
  let outerArcEnd := g.lineCircle rightLine center outerRadius
  if innerRadius ≤ spokeWidth then
    let lineIntersection := g.lineLine leftLine rightLine
    stripWhitespace (renderTemplate [
      ["M", g.num (roundTo2 outerArcStart.x), g.num (roundTo2 outerArcStart.y)],
      ["A", g.num outerRadius, g.num outerRadius, "0", "0", "1",
        g.num (roundTo2 outerArcEnd.x), g.num (roundTo2 outerArcEnd.y)],
      ["L", g.num (roundTo2 lineIntersection.x), g.num (roundTo2 lineIntersection.y)],
      ["Z"]])
  else
    let innerArcStart := g.lineCircle rightLine center innerRadius
    let innerArcEnd := g.lineCircle leftLine center innerRadius
    stripWhitespace (renderTemplate [
      ["M", g.num (roundTo2 outerArcStart.x), g.num (roundTo2 outerArcStart.y)],
      ["A", g.num outerRadius, g.num outerRadius, "0", "0", "1",
        g.num (roundTo2 outerArcEnd.x), g.num (roundTo2 outerArcEnd.y)],
      ["L", g.num (roundTo2 innerArcStart.x), g.num (roundTo2 innerArcStart.y)],
      ["A", g.num innerRadius, g.num innerRadius, "0", "0", "0",
        g.num (roundTo2 innerArcEnd.x), g.num (roundTo2 innerArcEnd.y)],
      ["Z"]])

/-- Modelled from the spec: `getAnnulusSectorArcTextPath` with the
2-decimal rounding of intersection-derived coordinates the spec
describes (absent from the source). -/
def getAnnulusSectorArcTextPathRounded (g : Geom)
    (startAngle endAngle outerRadius innerRadius spokeWidth : ℚ) (center : Point) : String :=
  let leftLine := getRightParallelLine g center
    (getPointOnCircle g startAngle outerRadius center) (spokeWidth / 2)
  let rightLine := getLeftParallelLine g center
    (getPointOnCircle g endAngle outerRadius center) (spokeWidth / 2)
  let middleRadius := (innerRadius + outerRadius) / 2
  let textPathStart := g.lineCircle leftLine center middleRadius
  let textPathEnd := g.lineCircle rightLine center middleRadius
  if textPathStart.x > textPathEnd.x then
    stripWhitespace (renderTemplate [
      ["M", g.num (roundTo2 textPathEnd.x), g.num (roundTo2 textPathEnd.y)],
      ["A", g.num middleRadius, g.num middleRadius, "0", "0", "0",
        g.num (roundTo2 textPathStart.x), g.num (roundTo2 textPathStart.y)]])
  else
    stripWhitespace (renderTemplate [
      ["M", g.num (roundTo2 textPathStart.x), g.num (roundTo2 textPathStart.y)],
      ["A", g.num middleRadius, g.num middleRadius, "0", "0", "1",
        g.num (roundTo2 textPathEnd.x), g.num (roundTo2 textPathEnd.y)]])

/-- Modelled from the spec: `getAnnulusSectorLineTextPath` with the
2-decimal rounding of intersection-derived coordinates the spec
describes (absent from the source). -/
def getAnnulusSectorLineTextPathRounded (g : Geom)
    (startAngle endAngle outerRadius innerRadius spokeWidth : ℚ) (center : Point) : String :=
  let middleAngle := (startAngle + endAngle) / 2
  let lineEnd := getPointOnCircle g middleAngle (outerRadius + 1) center
  let line : Line := { start := center, end_ := lineEnd }
  let textPathStart := g.lineCircle line center innerRadius
  let textPathEnd := g.lineCircle line center outerRadius
  if textPathStart.x > textPathEnd.x then
    stripWhitespace (renderTemplate [
      ["M", g.num (roundTo2 textPathEnd.x), g.num (roundTo2 textPathEnd.y)],
      ["L", g.num (roundTo2 textPathStart.x), g.num (roundTo2 textPathStart.y)]])
  else
    stripWhitespace (renderTemplate [
      ["M", g.num (roundTo2 textPathStart.x), g.num (roundTo2 textPathStart.y)],
      ["L", g.num (roundTo2 textPathEnd.x), g.num (roundTo2 textPathEnd.y)]])

/-- Extracts, from a fragment list, the `(xAxisRotation, largeArcFlag,
sweepFlag)` triple of every `A` (arc) command, in order.  The fragments
after the flags are numeric (never `"A"`), so scanning fragment by
fragment finds exactly the arc commands. -/
def arcParams : List String → List (String × String × String)
  | t :: rx :: ry :: rot :: laf :: swf :: rest =>
    if t = "A" then (rot, laf, swf) :: arcParams rest
    else arcParams (rx :: ry :: rot :: laf :: swf :: rest)
  | _ => []

end SvgWheel

namespace SvgWheel.JsFloat

/-- ECMAScript double with finiteness tracked: `some q` is a finite value
(its exact rational), `none` is a non-finite value (`NaN` or `±Infinity`).
Used to settle the zero-length-line behaviour of
`getPerpendicularOffset`, where `0 / 0` produces `NaN`. -/
abbrev JsNum := Option ℚ

/-- A point with finiteness-tracked coordinates. -/
structure Point where
  x : JsNum
  y : JsNum
deriving DecidableEq, Repr

/-- A line segment over finiteness-tracked points. -/
structure Line where
  start : Point
  end_ : Point
deriving DecidableEq, Repr

/-- Addition: non-finite operands make a non-finite result. -/
def add : JsNum → JsNum → JsNum
  | some a, some b => some (a + b)
  | _, _ => none

/-- Subtraction: non-finite operands make a non-finite result. -/
def sub : JsNum → JsNum → JsNum
  | some a, some b => some (a - b)
  | _, _ => none

/-- Multiplication: non-finite operands make a non-finite result.
(`Infinity * 0 = NaN`, also non-finite, so propagating `none` is sound.) -/
def mul : JsNum → JsNum → JsNum
  | some a, some b => some (a * b)
  | _, _ => none

/-- Division: a zero divisor gives `NaN` (`0 / 0`) or `±Infinity`
(`x / 0`), in either case non-finite. -/
def div : JsNum → JsNum → JsNum
  | some a, some b => if b = 0 then none else some (a / b)
  | _, _ => none

/-- `Math.sqrt`: `NaN` on negative input, exactly `0` at `0`, and the
oracle `s` (the JS implementation's value) on positive input. -/
def sqrt (s : ℚ → ℚ) : JsNum → JsNum
  | some a => if a < 0 then none else if a = 0 then some 0 else some (s a)
  | none => none

/-- Source `getPerpendicularOffset` over finiteness-tracked numbers
(`Math.pow(d, 2)` is `d * d`). -/
def getPerpendicularOffset (s : ℚ → ℚ) (start end_ : Point) (offset : JsNum) : JsNum × JsNum :=
  let differenceX := sub start.x end_.x
  let differenceY := sub start.y end_.y
  let distance := sqrt s (add (mul differenceX differenceX) (mul differenceY differenceY))
  (div (mul differenceX offset) distance, div (mul differenceY offset) distance)

/-- Source `getLeftParallelLine` over finiteness-tracked numbers. -/
def getLeftParallelLine (s : ℚ → ℚ) (start end_ : Point) (offset : JsNum) : Line :=
  let o := getPerpendicularOffset s start end_ offset
  { start := { x := sub start.x o.2, y := add start.y o.1 }
    end_ := { x := sub end_.x o.2, y := add end_.y o.1 } }

/-- Source `getRightParallelLine` over finiteness-tracked numbers. -/
def getRightParallelLine (s : ℚ → ℚ) (start end_ : Point) (offset : JsNum) : Line :=
  let o := getPerpendicularOffset s start end_ offset
  { start := { x := add start.x o.2, y := sub start.y o.1 }
    end_ := { x := add end_.x o.2, y := sub end_.y o.1 } }

end SvgWheel.JsFloat

namespace SvgWheel

/-- A concrete oracle instance used by witnesses: every external
primitive is a simple total function. -/
def testGeom : Geom where
  cos := fun _ => 0
  sin := fun _ => 0
  pi := 3
  sqrt := fun _ => 0
  lineCircle := fun _ _ _ => ⟨0, 0⟩
  lineLine := fun _ _ => ⟨0, 0⟩
  num := fun _ => "0"

/-- A concrete oracle whose intersection lookups return the coordinate
`1/8` (which is not equal to its 2-decimal rounding `13/100`) and whose
number→string conversion distinguishes `1/8` from every other value. -/
def fractionGeom : Geom where
  cos := fun _ => 0
  sin := fun _ => 0
  pi := 3
  sqrt := fun _ => 0
  lineCircle := fun _ _ _ => ⟨1/8, 1/8⟩
  lineLine := fun _ _ => ⟨1/8, 1/8⟩
  num := fun q => if q = 1/8 then "a" else "b"

end SvgWheel

namespace SvgWheel

/-! ## Tokenization lemmas -/

lemma data_append (a b : String) : (a ++ b).data = a.data ++ b.data := rfl

lemma mk_data (s : String) : String.mk s.data = s := rfl

lemma splitWsAux_ws_nil (c : Char) (h : c.isWhitespace = true) (cs : List Char) :
    splitWsAux (c :: cs) [] = splitWsAux cs [] := by
  simp [splitWsAux, h]

lemma splitWsAux_ws_skip (w : List Char) (hw : ∀ c ∈ w, c.isWhitespace = true)
    (cs : List Char) : splitWsAux (w ++ cs) [] = splitWsAux cs [] := by
  induction w with
  | nil => rfl
  | cons c w ih =>
    rw [List.cons_append, splitWsAux_ws_nil c (hw c (List.mem_cons_self c w)) (w ++ cs)]
    exact ih fun c hc => hw c (List.mem_cons_of_mem _ hc)

lemma splitWsAux_ws_all (w : List Char) (hw : ∀ c ∈ w, c.isWhitespace = true) :
    splitWsAux w [] = [] := by
  have := splitWsAux_ws_skip w hw []
  simpa using this

lemma splitWsAux_tok_aux (t : List Char) (hnw : ∀ c ∈ t, c.isWhitespace = false)
    (b : Char) (hb : b.isWhitespace = true) (cs : List Char) :
    ∀ acc : List Char, acc ≠ [] ∨ t ≠ [] →
      splitWsAux (t ++ b :: cs) acc = String.mk (acc.reverse ++ t) :: splitWsAux cs [] := by
  induction t with
  | nil =>
    intro acc hne
    have hacc : acc ≠ [] := by
      rcases hne with h | h
      · exact h
      · exact absurd rfl h
    match acc, hacc with
    | a :: acc, _ => simp [splitWsAux, hb]
  | cons a t ih =>
    intro acc _
    have ha : a.isWhitespace = false := hnw a (List.mem_cons_self _ _)
    have hnw' : ∀ c ∈ t, c.isWhitespace = false := fun c hc => hnw c (List.mem_cons_of_mem _ hc)
    rw [List.cons_append]
    show splitWsAux (a :: (t ++ b :: cs)) acc = _
    rw [show splitWsAux (a :: (t ++ b :: cs)) acc = splitWsAux (t ++ b :: cs) (a :: acc) by
      simp [splitWsAux, ha]]
    rw [ih hnw' (a :: acc) (Or.inl (by simp))]
    simp

lemma splitWsAux_tok (t : List Char) (ht : t ≠ []) (hnw : ∀ c ∈ t, c.isWhitespace = false)
    (b : Char) (hb : b.isWhitespace = true) (cs : List Char) :
    splitWsAux (t ++ b :: cs) [] = String.mk t :: splitWsAux cs [] := by
  have := splitWsAux_tok_aux t hnw b hb cs [] (Or.inr ht)
  simpa using this

lemma splitWsAux_tok_end (t : List Char) (ht : t ≠ []) (hnw : ∀ c ∈ t, c.isWhitespace = false) :
    splitWsAux t [] = [String.mk t] := by
  suffices h : ∀ acc : List Char, acc ≠ [] ∨ t ≠ [] →
      splitWsAux t acc = [String.mk (acc.reverse ++ t)] by
    have := h [] (Or.inr ht)
    simpa using this
  clear ht
  induction t with
  | nil =>
    intro acc hne
    have hacc : acc ≠ [] := by
      rcases hne with h | h
      · exact h
      · exact absurd rfl h
    match acc, hacc with
    | a :: acc, _ => simp [splitWsAux]
  | cons a t ih =>
    intro acc _
    have ha : a.isWhitespace = false := hnw a (List.mem_cons_self _ _)
    have hnw' : ∀ c ∈ t, c.isWhitespace = false := fun c hc => hnw c (List.mem_cons_of_mem _ hc)
    rw [show splitWsAux (a :: t) acc = splitWsAux t (a :: acc) by simp [splitWsAux, ha]]
    rw [ih hnw' (a :: acc) (Or.inl (by simp))]
    simp

lemma wsTokens_joinTokens (ts : List String) (h : ∀ t ∈ ts, Tok t) :
    wsTokens (joinTokens ts) = ts := by
  induction ts with
  | nil => rfl
  | cons t rest ih =>
    have ht : Tok t := h t (List.mem_cons_self _ _)
    cases rest with
    | nil =>
      show splitWsAux t.data [] = [t]
      rw [splitWsAux_tok_end t.data ht.1 ht.2, mk_data]
    | cons t' rest' =>
      show splitWsAux (t ++ " " ++ joinTokens (t' :: rest')).data [] = _
      have hdata : (t ++ " " ++ joinTokens (t' :: rest')).data
          = t.data ++ ' ' :: (joinTokens (t' :: rest')).data := by
        rw [data_append, data_append]
        simp
      rw [hdata, splitWsAux_tok t.data ht.1 ht.2 ' ' (by decide) _, mk_data]
      have ih' := ih fun u hu => h u (List.mem_cons_of_mem _ hu)
      rw [show splitWsAux (joinTokens (t' :: rest')).data [] = wsTokens (joinTokens (t' :: rest')) from rfl, ih']

lemma splitWsAux_line (line : List String) (hg : ∀ t ∈ line, Tok t)
    (b : Char) (hb : b.isWhitespace = true) (cs : List Char) :
    splitWsAux ((joinTokens line).data ++ b :: cs) [] = line ++ splitWsAux cs [] := by
  induction line with
  | nil =>
    show splitWsAux (b :: cs) [] = splitWsAux cs []
    exact splitWsAux_ws_nil b hb cs
  | cons t rest ih =>
    have ht : Tok t := hg t (List.mem_cons_self _ _)
    cases rest with
    | nil =>
      show splitWsAux (t.data ++ b :: cs) [] = [t] ++ splitWsAux cs []
      rw [splitWsAux_tok t.data ht.1 ht.2 b hb cs, mk_data]
      rfl
    | cons t' rest' =>
      have hdata : (joinTokens (t :: t' :: rest')).data ++ b :: cs
          = t.data ++ ' ' :: ((joinTokens (t' :: rest')).data ++ b :: cs) := by
        show (t ++ " " ++ joinTokens (t' :: rest')).data ++ b :: cs = _
        rw [data_append, data_append]
        simp
      rw [hdata, splitWsAux_tok t.data ht.1 ht.2 ' ' (by decide) _, mk_data]
      rw [ih fun u hu => hg u (List.mem_cons_of_mem _ hu)]
      rfl

lemma renderTemplate_data_head (lines : List (List String)) :
    ∃ cs : List Char, (renderTemplate lines).data = '\n' :: cs ∧
      wsTokens (renderTemplate lines) = splitWsAux cs [] := by
  cases lines with
  | nil =>
    refine ⟨"        ".data, rfl, ?_⟩
    show splitWsAux ('\n' :: "        ".data) [] = _
    rw [splitWsAux_ws_nil '\n' (by decide)]
  | cons line rest =>
    refine ⟨("            " ++ joinTokens line ++ renderTemplate rest).data, ?_, ?_⟩
    · show ("\n            " ++ joinTokens line ++ renderTemplate rest).data = _
      rw [data_append, data_append, data_append]
      rfl
    · show splitWsAux (("\n            " ++ joinTokens line ++ renderTemplate rest).data) [] = _
      rw [show ("\n            " ++ joinTokens line ++ renderTemplate rest).data
          = '\n' :: ("            " ++ joinTokens line ++ renderTemplate rest).data from by
        rw [data_append, data_append, data_append, data_append]
        rfl]
      rw [splitWsAux_ws_nil '\n' (by decide)]

lemma wsTokens_renderTemplate (lines : List (List String))
    (hg : ∀ l ∈ lines, ∀ t ∈ l, Tok t) :
    wsTokens (renderTemplate lines) = lines.flatten := by
  induction lines with
  | nil =>
    show splitWsAux "\n        ".data [] = []
    exact splitWsAux_ws_all _ (by decide)
  | cons line rest ih =>
    show splitWsAux ("\n            " ++ joinTokens line ++ renderTemplate rest).data [] = _
    rw [data_append, data_append]
    rw [show ("\n            ".data : List Char) ++ (joinTokens line).data ++ (renderTemplate rest).data
        = "\n            ".data ++ ((joinTokens line).data ++ (renderTemplate rest).data) from by
      simp]
    rw [splitWsAux_ws_skip "\n            ".data (by decide)]
    obtain ⟨cs, hcs, htoks⟩ := renderTemplate_data_head rest
    rw [hcs]
    rw [splitWsAux_line line (hg line (List.mem_cons_self _ _)) '\n' (by decide) cs]
    rw [← htoks, ih fun l hl => hg l (List.mem_cons_of_mem _ hl)]
    simp

lemma wsTokens_strip_render (lines : List (List String))
    (hg : ∀ l ∈ lines, ∀ t ∈ l, Tok t) :
    wsTokens (stripWhitespace (renderTemplate lines)) = lines.flatten := by
  show wsTokens (joinTokens (wsTokens (renderTemplate lines))) = _
  rw [wsTokens_renderTemplate lines hg]
  refine wsTokens_joinTokens _ fun t ht => ?_
  obtain ⟨l, hl, htl⟩ := List.mem_flatten.mp ht
  exact hg l hl t htl

end SvgWheel

namespace SvgWheel

/-! ## Fragment-level characterization of the three path builders -/

lemma GoodNum.tok {t : String} (h : GoodNum t) : Tok t := h.1

lemma GoodNum.ne_M {t : String} (h : GoodNum t) : t ≠ "M" := by
  rintro rfl
  exact (h.2 'M' (by decide)).1 rfl

lemma GoodNum.ne_A {t : String} (h : GoodNum t) : t ≠ "A" := by
  rintro rfl
  exact (h.2 'A' (by decide)).2.1 rfl

lemma GoodNum.ne_L {t : String} (h : GoodNum t) : t ≠ "L" := by
  rintro rfl
  exact (h.2 'L' (by decide)).2.2.1 rfl

lemma GoodNum.ne_Z {t : String} (h : GoodNum t) : t ≠ "Z" := by
  rintro rfl
  exact (h.2 'Z' (by decide)).2.2.2 rfl

lemma wsTokens_getAnnulusSectorPath (g : Geom) (hnum : ∀ q, GoodNum (g.num q))
    (startAngle endAngle outerRadius innerRadius spokeWidth : ℚ) (center : Point) :
    wsTokens (getAnnulusSectorPath g startAngle endAngle outerRadius innerRadius spokeWidth
        center) =
      (let leftLine := getRightParallelLine g center
         (getPointOnCircle g startAngle (outerRadius + 1) center) (spokeWidth / 2)
       let rightLine := getLeftParallelLine g center
         (getPointOnCircle g endAngle (outerRadius + 1) center) (spokeWidth / 2)
       let outerArcStart := g.lineCircle leftLine center outerRadius
       let outerArcEnd := g.lineCircle rightLine center outerRadius
       if innerRadius ≤ spokeWidth then
         let lineIntersection := g.lineLine leftLine rightLine
         ["M", g.num outerArcStart.x, g.num outerArcStart.y,
          "A", g.num outerRadius, g.num outerRadius, "0", "0", "1",
          g.num outerArcEnd.x, g.num outerArcEnd.y,
          "L", g.num lineIntersection.x, g.num lineIntersection.y, "Z"]
       else
         let innerArcStart := g.lineCircle rightLine center innerRadius
         let innerArcEnd := g.lineCircle leftLine center innerRadius
         ["M", g.num outerArcStart.x, g.num outerArcStart.y,
          "A", g.num outerRadius, g.num outerRadius, "0", "0", "1",
          g.num outerArcEnd.x, g.num outerArcEnd.y,
          "L", g.num innerArcStart.x, g.num innerArcStart.y,
          "A", g.num innerRadius, g.num innerRadius, "0", "0", "0",
          g.num innerArcEnd.x, g.num innerArcEnd.y, "Z"]) := by
  by_cases h : innerRadius ≤ spokeWidth
  · simp only [getAnnulusSectorPath, if_pos h]
    rw [wsTokens_strip_render]
    · simp
    · intro l hl t ht
      fin_cases hl <;> fin_cases ht <;> first | exact (hnum _).tok | decide
  · simp only [getAnnulusSectorPath, if_neg h]
    rw [wsTokens_strip_render]
    · simp
    · intro l hl t ht
      fin_cases hl <;> fin_cases ht <;> first | exact (hnum _).tok | decide

lemma wsTokens_getAnnulusSectorPathRounded (g : Geom) (hnum : ∀ q, GoodNum (g.num q))
    (startAngle endAngle outerRadius innerRadius spokeWidth : ℚ) (center : Point) :
    wsTokens (getAnnulusSectorPathRounded g startAngle endAngle outerRadius innerRadius
        spokeWidth center) =
      (let leftLine := getRightParallelLine g center
         (getPointOnCircle g startAngle (outerRadius + 1) center) (spokeWidth / 2)
       let rightLine := getLeftParallelLine g center
         (getPointOnCircle g endAngle (outerRadius + 1) center) (spokeWidth / 2)
       let outerArcStart := g.lineCircle leftLine center outerRadius
       let outerArcEnd := g.lineCircle rightLine center outerRadius
       if innerRadius ≤ spokeWidth then
         let lineIntersection := g.lineLine leftLine rightLine
         ["M", g.num (roundTo2 outerArcStart.x), g.num (roundTo2 outerArcStart.y),
          "A", g.num outerRadius, g.num outerRadius, "0", "0", "1",
          g.num (roundTo2 outerArcEnd.x), g.num (roundTo2 outerArcEnd.y),
          "L", g.num (roundTo2 lineIntersection.x), g.num (roundTo2 lineIntersection.y), "Z"]
       else
         let innerArcStart := g.lineCircle rightLine center innerRadius
         let innerArcEnd := g.lineCircle leftLine center innerRadius
         ["M", g.num (roundTo2 outerArcStart.x), g.num (roundTo2 outerArcStart.y),
          "A", g.num outerRadius, g.num outerRadius, "0", "0", "1",
          g.num (roundTo2 outerArcEnd.x), g.num (roundTo2 outerArcEnd.y),
          "L", g.num (roundTo2 innerArcStart.x), g.num (roundTo2 innerArcStart.y),
          "A", g.num innerRadius, g.num innerRadius, "0", "0", "0",
          g.num (roundTo2 innerArcEnd.x), g.num (roundTo2 innerArcEnd.y), "Z"]) := by
  by_cases h : innerRadius ≤ spokeWidth
  · simp only [getAnnulusSectorPathRounded, if_pos h]
    rw [wsTokens_strip_render]
    · simp
    · intro l hl t ht
      fin_cases hl <;> fin_cases ht <;> first | exact (hnum _).tok | decide
  · simp only [getAnnulusSectorPathRounded, if_neg h]
    rw [wsTokens_strip_render]
    · simp
    · intro l hl t ht
      fin_cases hl <;> fin_cases ht <;> first | exact (hnum _).tok | decide

lemma wsTokens_getAnnulusSectorArcTextPath (g : Geom) (hnum : ∀ q, GoodNum (g.num q))
    (startAngle endAngle outerRadius innerRadius spokeWidth : ℚ) (center : Point) :
    wsTokens (getAnnulusSectorArcTextPath g startAngle endAngle outerRadius innerRadius
        spokeWidth center) =
      (let leftLine := getRightParallelLine g center
         (getPointOnCircle g startAngle outerRadius center) (spokeWidth / 2)
       let rightLine := getLeftParallelLine g center
         (getPointOnCircle g endAngle outerRadius center) (spokeWidth / 2)
       let middleRadius := (innerRadius + outerRadius) / 2
       let textPathStart := g.lineCircle leftLine center middleRadius
       let textPathEnd := g.lineCircle rightLine center middleRadius
       if textPathStart.x > textPathEnd.x then
         ["M", g.num textPathEnd.x, g.num textPathEnd.y,
          "A", g.num middleRadius, g.num middleRadius, "0", "0", "0",
          g.num textPathStart.x, g.num textPathStart.y]
       else
         ["M", g.num textPathStart.x, g.num textPathStart.y,
          "A", g.num middleRadius, g.num middleRadius, "0", "0", "1",
          g.num textPathEnd.x, g.num textPathEnd.y]) := by
  by_cases h : (g.lineCircle (getRightParallelLine g center
      (getPointOnCircle g startAngle outerRadius center) (spokeWidth / 2)) center
      ((innerRadius + outerRadius) / 2)).x > (g.lineCircle (getLeftParallelLine g center
      (getPointOnCircle g endAngle outerRadius center) (spokeWidth / 2)) center
      ((innerRadius + outerRadius) / 2)).x
  · simp only [getAnnulusSectorArcTextPath, if_pos h]
    rw [wsTokens_strip_render]
    · simp
    · intro l hl t ht
      fin_cases hl <;> fin_cases ht <;> first | exact (hnum _).tok | decide
  · simp only [getAnnulusSectorArcTextPath, if_neg h]
    rw [wsTokens_strip_render]
    · simp
    · intro l hl t ht
      fin_cases hl <;> fin_cases ht <;> first | exact (hnum _).tok | decide

lemma wsTokens_getAnnulusSectorLineTextPath (g : Geom) (hnum : ∀ q, GoodNum (g.num q))
    (startAngle endAngle outerRadius innerRadius spokeWidth : ℚ) (center : Point) :
    wsTokens (getAnnulusSectorLineTextPath g startAngle endAngle outerRadius innerRadius
        spokeWidth center) =
      (let middleAngle := (startAngle + endAngle) / 2
       let lineEnd := getPointOnCircle g middleAngle (outerRadius + 1) center
       let line : Line := { start := center, end_ := lineEnd }
       let textPathStart := g.lineCircle line center innerRadius
       let textPathEnd := g.lineCircle line center outerRadius
       if textPathStart.x > textPathEnd.x then
         ["M", g.num textPathEnd.x, g.num textPathEnd.y,
          "L", g.num textPathStart.x, g.num textPathStart.y]
       else
         ["M", g.num textPathStart.x, g.num textPathStart.y,
          "L", g.num textPathEnd.x, g.num textPathEnd.y]) := by
  by_cases h : (g.lineCircle (Line.mk center (getPointOnCircle g
      ((startAngle + endAngle) / 2) (outerRadius + 1) center)) center innerRadius).x >
      (g.lineCircle (Line.mk center (getPointOnCircle g
      ((startAngle + endAngle) / 2) (outerRadius + 1) center)) center outerRadius).x
  · simp only [getAnnulusSectorLineTextPath, if_pos h]
    rw [wsTokens_strip_render]
    · simp
    · intro l hl t ht
      fin_cases hl <;> fin_cases ht <;> first | exact (hnum _).tok | decide
  · simp only [getAnnulusSectorLineTextPath, if_neg h]
    rw [wsTokens_strip_render]
    · simp
    · intro l hl t ht
      fin_cases hl <;> fin_cases ht <;> first | exact (hnum _).tok | decide

end SvgWheel

namespace SvgWheel

/-! ## Claim theorems -/

/-- C1: for every `sectorCount = n ≥ 1`, `getAnnulusSectorPaths` returns
exactly `n` path strings, and the `i`-th one (for `i < n`) is
`getAnnulusSectorPath` applied to the angles
`angleOffset + i * (2π/n)` and `angleOffset + (i+1) * (2π/n)` with the
remaining arguments unchanged, in index order. -/
theorem annulusSectorPaths_partition (g : Geom) (sectorCount : ℕ) (hn : 1 ≤ sectorCount)
    (outerRadius innerRadius spokeWidth angleOffset : ℚ) (center : Point)
    (i : ℕ) (hi : i < sectorCount) :
    (getAnnulusSectorPaths g sectorCount outerRadius innerRadius spokeWidth angleOffset
        center).length = sectorCount ∧
    (getAnnulusSectorPaths g sectorCount outerRadius innerRadius spokeWidth angleOffset
        center)[i]? =
      some (getAnnulusSectorPath g
        (angleOffset + (i : ℚ) * (2 * g.pi / (sectorCount : ℚ)))
        (angleOffset + ((i : ℚ) + 1) * (2 * g.pi / (sectorCount : ℚ)))
        outerRadius innerRadius spokeWidth center) := by
  constructor
  · simp only [getAnnulusSectorPaths, List.length_map, List.length_range]
  · have h1 : angleOffset + (i : ℚ) * (2 * g.pi / (sectorCount : ℚ)) + 2 * g.pi / (sectorCount : ℚ)
        = angleOffset + ((i : ℚ) + 1) * (2 * g.pi / (sectorCount : ℚ)) := by ring
    simp only [getAnnulusSectorPaths, List.getElem?_map, List.getElem?_range, hi, if_pos,
      Option.map_some']
    rw [h1]

/-- Witness for C1 at `sectorCount = 2`, `i = 1`. -/
theorem annulusSectorPaths_partition_witness :
    (getAnnulusSectorPaths testGeom 2 1 0 0 0 ⟨0, 0⟩).length = 2 ∧
    (getAnnulusSectorPaths testGeom 2 1 0 0 0 ⟨0, 0⟩)[1]? =
      some (getAnnulusSectorPath testGeom
        (0 + ((1 : ℕ) : ℚ) * (2 * testGeom.pi / ((2 : ℕ) : ℚ)))
        (0 + (((1 : ℕ) : ℚ) + 1) * (2 * testGeom.pi / ((2 : ℕ) : ℚ)))
        1 0 0 ⟨0, 0⟩) :=
  annulusSectorPaths_partition testGeom 2 (by decide) 1 0 0 0 ⟨0, 0⟩ 1 (by decide)

/-- C5: `getWheelSegmentPath` equals `getAnnulusSectorPath` applied to the
converted angles `((deg mod 360) - 90) * π / 180`, and in particular the
call `(0, 90, 150, 50, 20, origin)` equals
`getAnnulusSectorPath (degToRad 0) (degToRad 90) 150 50 20 origin`. -/
theorem wheelSegmentPath_delegates (g : Geom)
    (startAngle endAngle outerRadius innerRadius spokeWidth : ℚ) (center : Point) :
    getWheelSegmentPath g startAngle endAngle outerRadius innerRadius spokeWidth center =
      getAnnulusSectorPath g ((jsMod startAngle 360 - 90) * g.pi / 180)
        ((jsMod endAngle 360 - 90) * g.pi / 180)
        outerRadius innerRadius spokeWidth center ∧
    getWheelSegmentPath g 0 90 150 50 20 ⟨0, 0⟩ =
      getAnnulusSectorPath g (degToRad g 0) (degToRad g 90) 150 50 20 ⟨0, 0⟩ := by
  constructor
  · have h : ∀ d : ℚ, degToRad g d = (jsMod d 360 - 90) * g.pi / 180 := by
      intro d
      unfold degToRad
      ring
    unfold getWheelSegmentPath
    rw [h, h]
  · rfl

/-- C7: on a zero-length line (`start = end`) the perpendicular-offset
computation divides by the zero distance, so both offset components and
all four coordinates of the left and right parallel lines are non-finite
(`none`), with no error raised. -/
theorem zero_length_line_nonfinite (s : ℚ → ℚ) (start end_ : JsFloat.Point)
    (offset : JsFloat.JsNum) (h : start = end_) :
    (JsFloat.getPerpendicularOffset s start end_ offset).1 = none ∧
    (JsFloat.getPerpendicularOffset s start end_ offset).2 = none ∧
    JsFloat.getLeftParallelLine s start end_ offset =
      JsFloat.Line.mk (JsFloat.Point.mk none none) (JsFloat.Point.mk none none) ∧
    JsFloat.getRightParallelLine s start end_ offset =
      JsFloat.Line.mk (JsFloat.Point.mk none none) (JsFloat.Point.mk none none) := by
  subst h
  obtain ⟨x, y⟩ := start
  cases x <;> cases y <;> cases offset <;>
    simp [JsFloat.getPerpendicularOffset, JsFloat.getLeftParallelLine,
      JsFloat.getRightParallelLine, JsFloat.sub, JsFloat.add, JsFloat.mul,
      JsFloat.div, JsFloat.sqrt]

/-- Witness for C7 at the concrete zero-length line `(1, 2) → (1, 2)`. -/
theorem zero_length_line_nonfinite_witness :
    (JsFloat.getPerpendicularOffset (fun _ => 0) (JsFloat.Point.mk (some 1) (some 2))
        (JsFloat.Point.mk (some 1) (some 2)) (some 5)).1 = none ∧
    (JsFloat.getPerpendicularOffset (fun _ => 0) (JsFloat.Point.mk (some 1) (some 2))
        (JsFloat.Point.mk (some 1) (some 2)) (some 5)).2 = none ∧
    JsFloat.getLeftParallelLine (fun _ => 0) (JsFloat.Point.mk (some 1) (some 2))
        (JsFloat.Point.mk (some 1) (some 2)) (some 5) =
      JsFloat.Line.mk (JsFloat.Point.mk none none) (JsFloat.Point.mk none none) ∧
    JsFloat.getRightParallelLine (fun _ => 0) (JsFloat.Point.mk (some 1) (some 2))
        (JsFloat.Point.mk (some 1) (some 2)) (some 5) =
      JsFloat.Line.mk (JsFloat.Point.mk none none) (JsFloat.Point.mk none none) :=
  zero_length_line_nonfinite (fun _ => 0) (JsFloat.Point.mk (some 1) (some 2))
    (JsFloat.Point.mk (some 1) (some 2)) (some 5) rfl

/-- C8: for `sectorCount = 0` each batch builder returns the empty
sequence (the mapped range is empty, so the single-sector builder is
never invoked and no error is raised). -/
theorem batch_builders_empty_at_zero (g : Geom)
    (outerRadius innerRadius spokeWidth angleOffset : ℚ) (center : Point) :
    getAnnulusSectorPaths g 0 outerRadius innerRadius spokeWidth angleOffset center = [] ∧
    getAnnulusSectorArcTextPaths g 0 outerRadius innerRadius spokeWidth angleOffset center
      = [] ∧
    getAnnulusSectorLineTextPaths g 0 outerRadius innerRadius spokeWidth angleOffset center
      = [] := by
  refine ⟨?_, ?_, ?_⟩ <;>
    simp [getAnnulusSectorPaths, getAnnulusSectorArcTextPaths, getAnnulusSectorLineTextPaths]

/-- C9: `getAnnulusSectorLineTextPath` never uses its `spokeWidth`
argument, so its output is identical for any two spoke widths. -/
theorem lineTextPath_ignores_spokeWidth (g : Geom)
    (startAngle endAngle outerRadius innerRadius w1 w2 : ℚ) (center : Point) :
    getAnnulusSectorLineTextPath g startAngle endAngle outerRadius innerRadius w1 center =
    getAnnulusSectorLineTextPath g startAngle endAngle outerRadius innerRadius w2 center := rfl

/-- C10: `getAnnulusSectorLineTextPath` only uses its two angle arguments
through their mean `(startAngle + endAngle) / 2`, so swapping them leaves
the output unchanged. -/
theorem lineTextPath_angle_symm (g : Geom)
    (startAngle endAngle outerRadius innerRadius spokeWidth : ℚ) (center : Point) :
    getAnnulusSectorLineTextPath g startAngle endAngle outerRadius innerRadius spokeWidth
      center =
    getAnnulusSectorLineTextPath g endAngle startAngle outerRadius innerRadius spokeWidth
      center := by
  unfold getAnnulusSectorLineTextPath
  rw [add_comm startAngle endAngle]

end SvgWheel

namespace SvgWheel

lemma minmax_le (a b : ℚ) : (if a > b then b else a) ≤ (if a > b then a else b) := by
  by_cases h : a > b
  · rw [if_pos h, if_pos h]
    exact le_of_lt h
  · rw [if_neg h, if_neg h]
    exact le_of_not_lt h

/-- C2: the returned path has the 4-command collapsed form `M A L Z`
(ending in the line-line intersection apex) exactly when
`innerRadius ≤ spokeWidth`, and the 6-command full form `M A L A Z`
(through the two inner-circle intersections) exactly when
`innerRadius > spokeWidth`. -/
theorem annulusSectorPath_collapsed_iff (g : Geom) (hnum : ∀ q, GoodNum (g.num q))
    (startAngle endAngle outerRadius innerRadius spokeWidth : ℚ) (center : Point) :
    (wsTokens (getAnnulusSectorPath g startAngle endAngle outerRadius innerRadius spokeWidth
        center) =
      (let leftLine := getRightParallelLine g center
         (getPointOnCircle g startAngle (outerRadius + 1) center) (spokeWidth / 2)
       let rightLine := getLeftParallelLine g center
         (getPointOnCircle g endAngle (outerRadius + 1) center) (spokeWidth / 2)
       let outerArcStart := g.lineCircle leftLine center outerRadius
       let outerArcEnd := g.lineCircle rightLine center outerRadius
       let lineIntersection := g.lineLine leftLine rightLine
       ["M", g.num outerArcStart.x, g.num outerArcStart.y,
        "A", g.num outerRadius, g.num outerRadius, "0", "0", "1",
        g.num outerArcEnd.x, g.num outerArcEnd.y,
        "L", g.num lineIntersection.x, g.num lineIntersection.y, "Z"])
      ↔ innerRadius ≤ spokeWidth) ∧
    (wsTokens (getAnnulusSectorPath g startAngle endAngle outerRadius innerRadius spokeWidth
        center) =
      (let leftLine := getRightParallelLine g center
         (getPointOnCircle g startAngle (outerRadius + 1) center) (spokeWidth / 2)
       let rightLine := getLeftParallelLine g center
         (getPointOnCircle g endAngle (outerRadius + 1) center) (spokeWidth / 2)
       let outerArcStart := g.lineCircle leftLine center outerRadius
       let outerArcEnd := g.lineCircle rightLine center outerRadius
       let innerArcStart := g.lineCircle rightLine center innerRadius
       let innerArcEnd := g.lineCircle leftLine center innerRadius
       ["M", g.num outerArcStart.x, g.num outerArcStart.y,
        "A", g.num outerRadius, g.num outerRadius, "0", "0", "1",
        g.num outerArcEnd.x, g.num outerArcEnd.y,
        "L", g.num innerArcStart.x, g.num innerArcStart.y,
        "A", g.num innerRadius, g.num innerRadius, "0", "0", "0",
        g.num innerArcEnd.x, g.num innerArcEnd.y, "Z"])
      ↔ spokeWidth < innerRadius) := by
  have hch := wsTokens_getAnnulusSectorPath g hnum startAngle endAngle outerRadius innerRadius
    spokeWidth center
  by_cases h : innerRadius ≤ spokeWidth
  · constructor
    · simp only [hch, if_pos h]
      simp [h]
    · simp only [hch, if_pos h]
      constructor
      · intro heq
        have hlen := congrArg List.length heq
        simp at hlen
      · intro hlt
        exact absurd (lt_of_lt_of_le hlt h) (lt_irrefl _)
  · constructor
    · simp only [hch, if_neg h]
      constructor
      · intro heq
        have hlen := congrArg List.length heq
        simp at hlen
      · intro hle
        exact absurd hle h
    · simp only [hch, if_neg h]
      simp [not_le.mp h]

end SvgWheel

namespace SvgWheel

/-- C3: every arc command emitted by any builder carries
`xAxisRotation = 0` and `largeArcFlag = 0`; the sector path's outer arc
uses sweep flag `1` and (in the full annulus form) its inner arc uses
sweep flag `0`; the arc text path uses sweep `1`, or `0` after the
left-to-right swap; the line text path emits no arc at all. -/
theorem arc_commands_flags (g : Geom) (hnum : ∀ q, GoodNum (g.num q))
    (startAngle endAngle outerRadius innerRadius spokeWidth : ℚ) (center : Point) :
    arcParams (wsTokens (getAnnulusSectorPath g startAngle endAngle outerRadius innerRadius
        spokeWidth center)) =
      (if innerRadius ≤ spokeWidth then [("0", "0", "1")]
       else [("0", "0", "1"), ("0", "0", "0")]) ∧
    arcParams (wsTokens (getAnnulusSectorArcTextPath g startAngle endAngle outerRadius
        innerRadius spokeWidth center)) =
      (if (g.lineCircle (getRightParallelLine g center
            (getPointOnCircle g startAngle outerRadius center) (spokeWidth / 2)) center
            ((innerRadius + outerRadius) / 2)).x >
          (g.lineCircle (getLeftParallelLine g center
            (getPointOnCircle g endAngle outerRadius center) (spokeWidth / 2)) center
            ((innerRadius + outerRadius) / 2)).x
       then [("0", "0", "0")] else [("0", "0", "1")]) ∧
    arcParams (wsTokens (getAnnulusSectorLineTextPath g startAngle endAngle outerRadius
        innerRadius spokeWidth center)) = [] := by
  have hA : ∀ q, g.num q ≠ "A" := fun q => (hnum q).ne_A
  have hMA : ("M" : String) ≠ "A" := by decide
  have hLA : ("L" : String) ≠ "A" := by decide
  refine ⟨?_, ?_, ?_⟩
  · have hch := wsTokens_getAnnulusSectorPath g hnum startAngle endAngle outerRadius
      innerRadius spokeWidth center
    by_cases h : innerRadius ≤ spokeWidth
    · simp only [hch, if_pos h]
      simp [arcParams, hA, hMA, hLA]
    · simp only [hch, if_neg h]
      simp [arcParams, hA, hMA, hLA]
  · have hch := wsTokens_getAnnulusSectorArcTextPath g hnum startAngle endAngle outerRadius
      innerRadius spokeWidth center
    by_cases h : (g.lineCircle (getRightParallelLine g center
        (getPointOnCircle g startAngle outerRadius center) (spokeWidth / 2)) center
        ((innerRadius + outerRadius) / 2)).x >
        (g.lineCircle (getLeftParallelLine g center
        (getPointOnCircle g endAngle outerRadius center) (spokeWidth / 2)) center
        ((innerRadius + outerRadius) / 2)).x
    · simp only [hch, if_pos h]
      simp [arcParams, hA, hMA, hLA]
    · simp only [hch, if_neg h]
      simp [arcParams, hA, hMA, hLA]
  · have hch := wsTokens_getAnnulusSectorLineTextPath g hnum startAngle endAngle outerRadius
      innerRadius spokeWidth center
    by_cases h : (g.lineCircle (Line.mk center (getPointOnCircle g
        ((startAngle + endAngle) / 2) (outerRadius + 1) center)) center innerRadius).x >
        (g.lineCircle (Line.mk center (getPointOnCircle g
        ((startAngle + endAngle) / 2) (outerRadius + 1) center)) center outerRadius).x
    · simp only [hch, if_pos h]
      simp [arcParams, hA, hMA, hLA]
    · simp only [hch, if_neg h]
      simp [arcParams, hA, hMA, hLA]

/-- C4: both text-path builders emit the two guide points ordered so the
first point's x-coordinate is at most the second's: the naively computed
start and end points are swapped exactly when the start's x exceeds the
end's (the arc path's sweep flag then becoming `0` instead of `1`). -/
theorem textPaths_left_to_right (g : Geom) (hnum : ∀ q, GoodNum (g.num q))
    (startAngle endAngle outerRadius innerRadius spokeWidth : ℚ) (center : Point) :
    (wsTokens (getAnnulusSectorArcTextPath g startAngle endAngle outerRadius innerRadius
        spokeWidth center) =
      (let leftLine := getRightParallelLine g center
         (getPointOnCircle g startAngle outerRadius center) (spokeWidth / 2)
       let rightLine := getLeftParallelLine g center
         (getPointOnCircle g endAngle outerRadius center) (spokeWidth / 2)
       let middleRadius := (innerRadius + outerRadius) / 2
       let textPathStart := g.lineCircle leftLine center middleRadius
       let textPathEnd := g.lineCircle rightLine center middleRadius
       if textPathStart.x > textPathEnd.x then
         ["M", g.num textPathEnd.x, g.num textPathEnd.y,
          "A", g.num middleRadius, g.num middleRadius, "0", "0", "0",
          g.num textPathStart.x, g.num textPathStart.y]
       else
         ["M", g.num textPathStart.x, g.num textPathStart.y,
          "A", g.num middleRadius, g.num middleRadius, "0", "0", "1",
          g.num textPathEnd.x, g.num textPathEnd.y])) ∧
    ((if (g.lineCircle (getRightParallelLine g center
          (getPointOnCircle g startAngle outerRadius center) (spokeWidth / 2)) center
          ((innerRadius + outerRadius) / 2)).x >
         (g.lineCircle (getLeftParallelLine g center
          (getPointOnCircle g endAngle outerRadius center) (spokeWidth / 2)) center
          ((innerRadius + outerRadius) / 2)).x
      then (g.lineCircle (getLeftParallelLine g center
          (getPointOnCircle g endAngle outerRadius center) (spokeWidth / 2)) center
          ((innerRadius + outerRadius) / 2)).x
      else (g.lineCircle (getRightParallelLine g center
          (getPointOnCircle g startAngle outerRadius center) (spokeWidth / 2)) center
          ((innerRadius + outerRadius) / 2)).x) ≤
     (if (g.lineCircle (getRightParallelLine g center
          (getPointOnCircle g startAngle outerRadius center) (spokeWidth / 2)) center
          ((innerRadius + outerRadius) / 2)).x >
         (g.lineCircle (getLeftParallelLine g center
          (getPointOnCircle g endAngle outerRadius center) (spokeWidth / 2)) center
          ((innerRadius + outerRadius) / 2)).x
      then (g.lineCircle (getRightParallelLine g center
          (getPointOnCircle g startAngle outerRadius center) (spokeWidth / 2)) center
          ((innerRadius + outerRadius) / 2)).x
      else (g.lineCircle (getLeftParallelLine g center
          (getPointOnCircle g endAngle outerRadius center) (spokeWidth / 2)) center
          ((innerRadius + outerRadius) / 2)).x)) ∧
    (wsTokens (getAnnulusSectorLineTextPath g startAngle endAngle outerRadius innerRadius
        spokeWidth center) =
      (let middleAngle := (startAngle + endAngle) / 2
       let lineEnd := getPointOnCircle g middleAngle (outerRadius + 1) center
       let line : Line := { start := center, end_ := lineEnd }
       let textPathStart := g.lineCircle line center innerRadius
       let textPathEnd := g.lineCircle line center outerRadius
       if textPathStart.x > textPathEnd.x then
         ["M", g.num textPathEnd.x, g.num textPathEnd.y,
          "L", g.num textPathStart.x, g.num textPathStart.y]
       else
         ["M", g.num textPathStart.x, g.num textPathStart.y,
          "L", g.num textPathEnd.x, g.num textPathEnd.y])) ∧
    ((if (g.lineCircle (Line.mk center (getPointOnCircle g
          ((startAngle + endAngle) / 2) (outerRadius + 1) center)) center innerRadius).x >
         (g.lineCircle (Line.mk center (getPointOnCircle g
          ((startAngle + endAngle) / 2) (outerRadius + 1) center)) center outerRadius).x
      then (g.lineCircle (Line.mk center (getPointOnCircle g
          ((startAngle + endAngle) / 2) (outerRadius + 1) center)) center outerRadius).x
      else (g.lineCircle (Line.mk center (getPointOnCircle g
          ((startAngle + endAngle) / 2) (outerRadius + 1) center)) center innerRadius).x) ≤
     (if (g.lineCircle (Line.mk center (getPointOnCircle g
          ((startAngle + endAngle) / 2) (outerRadius + 1) center)) center innerRadius).x >
         (g.lineCircle (Line.mk center (getPointOnCircle g
          ((startAngle + endAngle) / 2) (outerRadius + 1) center)) center outerRadius).x
      then (g.lineCircle (Line.mk center (getPointOnCircle g
          ((startAngle + endAngle) / 2) (outerRadius + 1) center)) center innerRadius).x
      else (g.lineCircle (Line.mk center (getPointOnCircle g
          ((startAngle + endAngle) / 2) (outerRadius + 1) center)) center outerRadius).x)) :=
  ⟨wsTokens_getAnnulusSectorArcTextPath g hnum startAngle endAngle outerRadius innerRadius
      spokeWidth center,
   minmax_le _ _,
   wsTokens_getAnnulusSectorLineTextPath g hnum startAngle endAngle outerRadius innerRadius
      spokeWidth center,
   minmax_le _ _⟩

end SvgWheel

namespace SvgWheel

lemma fractionGeom_goodNum : ∀ q, GoodNum (fractionGeom.num q) := by
  intro q
  show GoodNum (if q = 1/8 then "a" else "b")
  split <;> decide

lemma roundTo2_eighth : roundTo2 (1/8 : ℚ) = 13/100 := by
  unfold roundTo2
  rw [show (1 : ℚ)/8 * 100 + 1/2 = ((13 : ℤ) : ℚ) by norm_num, Int.floor_intCast]
  norm_num

/-- C6 counterexample: it is not the case that every intersection-derived
coordinate is rounded to two decimals before interpolation.  With an
intersection oracle returning the coordinate `1/8` (whose 2-decimal
rounding is `13/100`) and a number formatter distinguishing the two, the
emitted path differs from the path that rounding would produce. -/
theorem rounding_counterexample :
    ¬ ∀ (g : Geom), (∀ q, GoodNum (g.num q)) →
      ∀ (startAngle endAngle outerRadius innerRadius spokeWidth : ℚ) (center : Point),
        getAnnulusSectorPath g startAngle endAngle outerRadius innerRadius spokeWidth
            center =
          getAnnulusSectorPathRounded g startAngle endAngle outerRadius innerRadius
            spokeWidth center ∧
        getAnnulusSectorArcTextPath g startAngle endAngle outerRadius innerRadius spokeWidth
            center =
          getAnnulusSectorArcTextPathRounded g startAngle endAngle outerRadius innerRadius
            spokeWidth center ∧
        getAnnulusSectorLineTextPath g startAngle endAngle outerRadius innerRadius spokeWidth
            center =
          getAnnulusSectorLineTextPathRounded g startAngle endAngle outerRadius innerRadius
            spokeWidth center := by
  intro hcl
  have key := (hcl fractionGeom fractionGeom_goodNum 0 0 0 0 0 ⟨0, 0⟩).1
  have ha := wsTokens_getAnnulusSectorPath fractionGeom fractionGeom_goodNum 0 0 0 0 0 ⟨0, 0⟩
  have hb := wsTokens_getAnnulusSectorPathRounded fractionGeom fractionGeom_goodNum
    0 0 0 0 0 ⟨0, 0⟩
  rw [key] at ha
  rw [ha] at hb
  norm_num [fractionGeom, roundTo2_eighth] at hb
  exact absurd hb (by decide)

end SvgWheel

namespace SvgWheel

/-- C6 amended: no rounding is applied anywhere — every path-building
function interpolates the coordinates returned by the intersection
lookups verbatim (together with the radii and the constant flag
fragments), as the following exact fragment characterizations of all
three builders show. -/
theorem no_rounding_applied (g : Geom) (hnum : ∀ q, GoodNum (g.num q))
    (startAngle endAngle outerRadius innerRadius spokeWidth : ℚ) (center : Point) :
    (wsTokens (getAnnulusSectorPath g startAngle endAngle outerRadius innerRadius spokeWidth
        center) =
      (let leftLine := getRightParallelLine g center
         (getPointOnCircle g startAngle (outerRadius + 1) center) (spokeWidth / 2)
       let rightLine := getLeftParallelLine g center
         (getPointOnCircle g endAngle (outerRadius + 1) center) (spokeWidth / 2)
       let outerArcStart := g.lineCircle leftLine center outerRadius
       let outerArcEnd := g.lineCircle rightLine center outerRadius
       if innerRadius ≤ spokeWidth then
         let lineIntersection := g.lineLine leftLine rightLine
         ["M", g.num outerArcStart.x, g.num outerArcStart.y,
          "A", g.num outerRadius, g.num outerRadius, "0", "0", "1",
          g.num outerArcEnd.x, g.num outerArcEnd.y,
          "L", g.num lineIntersection.x, g.num lineIntersection.y, "Z"]
       else
         let innerArcStart := g.lineCircle rightLine center innerRadius
         let innerArcEnd := g.lineCircle leftLine center innerRadius
         ["M", g.num outerArcStart.x, g.num outerArcStart.y,
          "A", g.num outerRadius, g.num outerRadius, "0", "0", "1",
          g.num outerArcEnd.x, g.num outerArcEnd.y,
          "L", g.num innerArcStart.x, g.num innerArcStart.y,
          "A", g.num innerRadius, g.num innerRadius, "0", "0", "0",
          g.num innerArcEnd.x, g.num innerArcEnd.y, "Z"])) ∧
    (wsTokens (getAnnulusSectorArcTextPath g startAngle endAngle outerRadius innerRadius
        spokeWidth center) =
      (let leftLine := getRightParallelLine g center
         (getPointOnCircle g startAngle outerRadius center) (spokeWidth / 2)
       let rightLine := getLeftParallelLine g center
         (getPointOnCircle g endAngle outerRadius center) (spokeWidth / 2)
       let middleRadius := (innerRadius + outerRadius) / 2
       let textPathStart := g.lineCircle leftLine center middleRadius
       let textPathEnd := g.lineCircle rightLine center middleRadius
       if textPathStart.x > textPathEnd.x then
         ["M", g.num textPathEnd.x, g.num textPathEnd.y,
          "A", g.num middleRadius, g.num middleRadius, "0", "0", "0",
          g.num textPathStart.x, g.num textPathStart.y]
       else
         ["M", g.num textPathStart.x, g.num textPathStart.y,
          "A", g.num middleRadius, g.num middleRadius, "0", "0", "1",
          g.num textPathEnd.x, g.num textPathEnd.y])) ∧
    (wsTokens (getAnnulusSectorLineTextPath g startAngle endAngle outerRadius innerRadius
        spokeWidth center) =
      (let middleAngle := (startAngle + endAngle) / 2
       let lineEnd := getPointOnCircle g middleAngle (outerRadius + 1) center
       let line : Line := { start := center, end_ := lineEnd }
       let textPathStart := g.lineCircle line center innerRadius
       let textPathEnd := g.lineCircle line center outerRadius
       if textPathStart.x > textPathEnd.x then
         ["M", g.num textPathEnd.x, g.num textPathEnd.y,
          "L", g.num textPathStart.x, g.num textPathStart.y]
       else
         ["M", g.num textPathStart.x, g.num textPathStart.y,
          "L", g.num textPathEnd.x, g.num textPathEnd.y])) :=
  ⟨wsTokens_getAnnulusSectorPath g hnum startAngle endAngle outerRadius innerRadius
      spokeWidth center,
   wsTokens_getAnnulusSectorArcTextPath g hnum startAngle endAngle outerRadius innerRadius
      spokeWidth center,
   wsTokens_getAnnulusSectorLineTextPath g hnum startAngle endAngle outerRadius innerRadius
      spokeWidth center⟩

/-- Witness for C2: under the concrete oracle `testGeom`, with
`innerRadius = 5 > spokeWidth = 1`, the backward direction of the
second equivalence yields the concrete full-form fragment list. -/
theorem annulusSectorPath_collapsed_iff_witness :
    wsTokens (getAnnulusSectorPath testGeom 0 0 1 5 1 ⟨0, 0⟩) =
      ["M", "0", "0", "A", "0", "0", "0", "0", "1", "0", "0",
       "L", "0", "0", "A", "0", "0", "0", "0", "0", "0", "0", "Z"] := by
  have h := (annulusSectorPath_collapsed_iff testGeom (fun _ => by show GoodNum "0"; decide)
    0 0 1 5 1 ⟨0, 0⟩).2.mpr (by norm_num)
  rw [h]
  norm_num [testGeom]

/-- Witness for C3: under `testGeom` with `innerRadius = 5 > spokeWidth
= 1`, the sector path carries exactly the two arc commands with flags
`(0, 0, 1)` and `(0, 0, 0)`. -/
theorem arc_commands_flags_witness :
    arcParams (wsTokens (getAnnulusSectorPath testGeom 0 0 1 5 1 ⟨0, 0⟩)) =
      [("0", "0", "1"), ("0", "0", "0")] := by
  have h := (arc_commands_flags testGeom (fun _ => by show GoodNum "0"; decide) 0 0 1 5 1 ⟨0, 0⟩).1
  rw [if_neg (by norm_num)] at h
  exact h

/-- Witness for C4: under `testGeom` both intersection points have equal
x-coordinates, so no swap happens and the arc text path reads start to
end with sweep flag `1`. -/
theorem textPaths_left_to_right_witness :
    wsTokens (getAnnulusSectorArcTextPath testGeom 0 0 1 5 1 ⟨0, 0⟩) =
      ["M", "0", "0", "A", "0", "0", "0", "0", "1", "0", "0"] := by
  have h := (textPaths_left_to_right testGeom (fun _ => by show GoodNum "0"; decide) 0 0 1 5 1 ⟨0, 0⟩).1
  rw [h]
  norm_num [testGeom]

/-- Witness for the amended C6: under `testGeom` the line text path's
fragments are exactly the raw formatted lookup coordinates. -/
theorem no_rounding_applied_witness :
    wsTokens (getAnnulusSectorLineTextPath testGeom 0 0 1 2 3 ⟨0, 0⟩) =
      ["M", "0", "0", "L", "0", "0"] := by
  have h := (no_rounding_applied testGeom (fun _ => by show GoodNum "0"; decide) 0 0 1 2 3 ⟨0, 0⟩).2.2
  rw [h]
  norm_num [testGeom]

end SvgWheel
